import Mathlib

/-!
Shallow embedding of the `shatter` runtime (host-side GPU resource manager):
the identity / reference-counting layer (`src/id.rs`), the descriptor cache
(`src/instance.rs`), the buffer synchronization protocol (`src/buffer.rs`),
the texture synchronization protocol (`src/texture.rs`), and the growable
buffer layout generated by the macro (`shatter-macro/src/shatter.rs`).

Machine integers are modelled as `Nat` with explicit `% 2^w` where the code
relies on wrapping (`AtomicU32::fetch_sub` / `fetch_add`, `AtomicU64`), and
fallible or panicking code returns `Except`/`Option`.  Device interactions
(buffer writes, staging copies) are recorded as explicit event traces so that
ordering claims can be stated.
-/

namespace Shatter

/-- `u32` modulus: `Id` reference counters are `AtomicU32`. -/
def u32Mod : Nat := 2 ^ 32

/-- `u64` modulus: identity values come from an `AtomicU64`. -/
def u64Mod : Nat := 2 ^ 64

/-- `!0 as usize` on a 64-bit target (`usize::MAX`). -/
def usizeMax : Nat := 2 ^ 64 - 1

/-- `isize::MAX` on a 64-bit target, the address-space bound checked by the
generated `grow`. -/
def isizeMax : Nat := 2 ^ 63 - 1

/-- Heap of shared `Arc<AtomicU32>` reference counters; an `Id`'s `ctr`
field is an index into this heap, so clones that share an `Arc` share the
slot. -/
abbrev Heap := List Nat

/-- Read a counter (`self.1.load`); absent slots read 0. -/
def refCount (h : Heap) (c : Nat) : Nat := h.getD c 0

/-- `Id<T>(u64, Arc<AtomicU32>, PhantomData)`: an identity value plus the
index of its shared reference counter.  Rust equality/ordering/hash are by
`val` alone. -/
structure Id where
  val : Nat
  ctr : Nat
deriving DecidableEq

/-- Allocate a fresh counter slot starting at zero (`Arc::new(AtomicU32::new(0))`). -/
def allocCounter (h : Heap) : Heap × Nat := (h ++ [0], h.length)

/-- `Clone for Id`: `fetch_add(1)` on the shared counter, the clone shares it. -/
def cloneId (h : Heap) (i : Id) : Heap × Id :=
  (h.set i.ctr ((refCount h i.ctr + 1) % u32Mod), i)

/-- `Id::clone_untracked`: same value, fresh counter starting at zero. -/
def cloneUntracked (h : Heap) (i : Id) : Heap × Id :=
  (h ++ [0], ⟨i.val, h.length⟩)

/-- `Drop for Id`: `fetch_sub(1)` on the shared counter (wrapping `u32`). -/
def dropId (h : Heap) (i : Id) : Heap :=
  h.set i.ctr ((refCount h i.ctr + (u32Mod - 1)) % u32Mod)

/-- `IdMap<T>`: a `DashMap<Id<T>, T>` (keyed by the identity's value) plus the
`AtomicU64` identity generator. -/
structure IdMap (α : Type) where
  entries : List (Id × α)
  nextId : Nat
deriving DecidableEq

/-- `IdMap::next_id`: `fetch_add(1)` on the generator, fresh zero counter. -/
def IdMap.nextIdOp {α : Type} (m : IdMap α) (h : Heap) : IdMap α × Heap × Id :=
  ({ m with nextId := (m.nextId + 1) % u64Mod }, h ++ [0], ⟨m.nextId, h.length⟩)

/-- `DashMap::insert(id.clone(), value)` as used by the runtime: the stored
key is a tracked clone sharing the identity's counter; an existing entry with
the same key value is replaced. -/
def IdMap.insertOp {α : Type} (m : IdMap α) (h : Heap) (i : Id) (v : α) : IdMap α × Heap :=
  let r := cloneId h i
  ({ m with entries := m.entries.filter (fun e => !(e.1.val == i.val)) ++ [(r.2, v)] }, r.1)

/-- `DashMap::get(&id)`: lookup by identity value. -/
def IdMap.getOp {α : Type} (m : IdMap α) (i : Id) : Option α :=
  (m.entries.find? (fun e => e.1.val == i.val)).map (fun e => e.2)

/-- `IdMap::clean`: `retain(|id, _| id.ref_count() > 0)`. -/
def IdMap.cleanOp {α : Type} (m : IdMap α) (h : Heap) : IdMap α :=
  { m with entries := m.entries.filter (fun e => decide (0 < refCount h e.1.ctr)) }

/-- `wgpu::BindGroupLayoutEntry`, reduced to the fields the claims speak
about: the binding index and the binding type (abstracted to a `Nat`). -/
structure LayoutEntry where
  binding : Nat
  ty : Nat
deriving DecidableEq

/-- `crate::BindGroupLayoutDescriptor { entries: Vec<BindGroupLayoutEntry> }`;
its derived `PartialEq`/`Hash` compare the vector in order. -/
abbrev LayoutDescriptor := List LayoutEntry

/-- The part of `Instance` the bind-group-layout claims use:
`bind_group_layout_descriptors` (descriptor cache), `bind_group_layouts`
(resource store, values abstracted to a creation tag), the counter heap, and
a count of `create_bind_group_layout` device calls. -/
structure InstanceState where
  heap : Heap
  layoutCache : List (LayoutDescriptor × Id)
  layouts : IdMap Nat
  created : Nat

/-- `DashMap::get` on the descriptor cache: lookup by descriptor value. -/
def cacheFind (c : List (LayoutDescriptor × Id)) (d : LayoutDescriptor) : Option Id :=
  (c.find? (fun e => e.1 == d)).map (fun e => e.2)

/-- `Instance::get_bind_group_layout`: on a hit, clone the cached identity;
on a miss, create the device object, allocate a fresh identity, insert an
untracked clone into the descriptor cache and a tracked clone into the
resource store, and return the identity.  Mirrors `src/instance.rs:95-117`
statement by statement. -/
def getBindGroupLayout (s : InstanceState) (desc : LayoutDescriptor) : InstanceState × Id :=
  match cacheFind s.layoutCache desc with
  | some i =>
      let r := cloneId s.heap i
      ({ s with heap := r.1 }, r.2)
  | none =>
      let obj := s.created
      let r1 := s.layouts.nextIdOp s.heap
      let i := r1.2.2
      let r2 := cloneUntracked r1.2.1 i
      let cache2 := s.layoutCache ++ [(desc, r2.2)]
      let r3 := r1.1.insertOp r2.1 i obj
      ({ heap := r3.2, layoutCache := cache2, layouts := r3.1, created := s.created + 1 }, i)

/-- Insertion step of the sort used by the code generator. -/
def insertSorted (e : LayoutEntry) : List LayoutEntry → List LayoutEntry
  | [] => [e]
  | x :: xs => if e.binding ≤ x.binding then e :: x :: xs else x :: insertSorted e xs

/-- `gen_entry_point_bindings` collects each group's entries keyed by binding
index and emits them sorted by binding (`entries.sort_by(|(a, _), (b, _)|
a.cmp(b))`, `shatter-macro/src/shatter.rs:321-341`); for entry lists with
distinct binding indices this is sorting by binding index. -/
def sortByBinding : List LayoutEntry → List LayoutEntry
  | [] => []
  | x :: xs => insertSorted x (sortByBinding xs)

/-! ## Buffer synchronization (`src/buffer.rs`) -/

/-- Panics the buffer code can raise. -/
inductive Panic where
  /-- the literal `panic!("wtf")` in `Buffer::download` for `0 < size < 4` -/
  | wtf
  /-- `.unwrap()` on a store lookup that found nothing -/
  | unwrapNone
deriving DecidableEq

/-- Device-side events of the buffer protocol, in the order the code issues
them. -/
inductive BufEv where
  /-- `device.create_buffer` for the shadowed buffer (`new` / `resize_buffer`) -/
  | createBuffer (size : Nat)
  /-- `needs_download.swap(false)` observed `true`: the flag is cleared -/
  | clearFlag
  /-- `device.create_buffer` for the `MAP_READ` staging buffer -/
  | createStaging (size : Nat)
  /-- `copy_buffer_to_buffer` + `queue.submit` -/
  | copySubmit (size : Nat)
  /-- `map_async` + `device.poll(Wait)` + `block_on` -/
  | blockWait
  /-- `ptr::copy_nonoverlapping` of the mapped bytes into the CPU shadow -/
  | copyShadow (size : Nat)
  /-- `queue.write_buffer(&buffer, 0, slice)` of the shadow bytes -/
  | writeBuffer (size : Nat)
deriving DecidableEq

/-- A realized `wgpu::Buffer`: its allocation size and current contents
(bytes abstracted to `Nat`; fresh buffers read as zeros). -/
structure DeviceBuf where
  size : Nat
  contents : List Nat
deriving DecidableEq

/-- The fields of `Buffer<T>` the claims are about: the CPU shadow bytes,
the computed layout size `T::size(&self.state)`, the lock-guarded current
identity, the cached device size, and the `needs_download` flag. -/
structure BufferSt where
  shadow : List Nat
  sizeVal : Nat
  id : Id
  bufferSize : Nat
  needsDownload : Bool
deriving DecidableEq

/-- A buffer together with the pieces of the global `Instance` it touches:
the counter heap and the `buffers` resource store. -/
structure BufSys where
  buf : BufferSt
  heap : Heap
  buffers : IdMap DeviceBuf
deriving DecidableEq

/-- `queue.write_buffer`'s effect on the stored device buffer: overwrite the
first `bs.length` bytes with `bs`. -/
def DeviceBuf.write (d : DeviceBuf) (bs : List Nat) : DeviceBuf :=
  { d with contents := bs ++ d.contents.drop bs.length }

/-- Mutate the device object stored under identity value `i.val`. -/
def IdMap.mapAt {α : Type} (m : IdMap α) (i : Id) (f : α → α) : IdMap α :=
  { m with entries := m.entries.map (fun e => if e.1.val == i.val then (e.1, f e.2) else e) }

/-- `Buffer::new` (`src/buffer.rs:107-136`): allocate the shadow, compute
`size = T::size(&state).max(4)`, create the device buffer, allocate an
identity and insert a tracked clone into the store; `needs_download` starts
`false`. -/
def bufferNew (shadow : List Nat) (sizeVal : Nat) (h : Heap) (m : IdMap DeviceBuf) :
    BufSys × List BufEv :=
  let size := max sizeVal 4
  let dev : DeviceBuf := ⟨size, List.replicate size 0⟩
  let r1 := m.nextIdOp h
  let i := r1.2.2
  let r2 := r1.1.insertOp r1.2.1 i dev
  (⟨⟨shadow, sizeVal, i, size, false⟩, r2.2, r2.1⟩, [.createBuffer size])

/-- `Buffer::download` (`src/buffer.rs:205-268`).  The first statement is
`needs_download.swap(false)`: the flag is cleared on entry, before any
transfer.  A zero size skips the transfer; `0 < size < 4` hits
`panic!("wtf")`; otherwise a staging buffer of `size.max(4)` bytes is
created, the device buffer is copied into it, the thread blocks on the
mapping, and the bytes are copied into the shadow.  (The mapped slice always
has the staging buffer's length, so `assert_eq!(slice.len(), size)` holds by
construction; a source buffer shorter than the copy is padded with zeros
here, a case no reachable state exercises.) -/
def download (sys : BufSys) : Except Panic (BufSys × List BufEv) :=
  if sys.buf.needsDownload = false then .ok (sys, [])
  else
    let sys1 : BufSys := { sys with buf := { sys.buf with needsDownload := false } }
    let size := sys1.buf.sizeVal
    if size = 0 then .ok (sys1, [.clearFlag])
    else if size < 4 then .error .wtf
    else
      let sz := max size 4
      match sys1.buffers.getOp sys1.buf.id with
      | none => .error .unwrapNone
      | some dev =>
          let staged := (dev.contents ++ List.replicate (sz - dev.contents.length) 0).take sz
          .ok ({ sys1 with buf := { sys1.buf with shadow := staged ++ sys1.buf.shadow.drop sz } },
               [.clearFlag, .createStaging sz, .copySubmit sz, .blockWait, .copyShadow sz])

/-- `Buffer::resize_buffer` (`src/buffer.rs:139-166`): force a pending
download first; then if the cached device size is below
`T::size(&state).max(4)`, create a buffer of that size, allocate a fresh
identity, insert a tracked clone into the store, call `clean()`, and only
then swap the buffer's identity (dropping the old one) and store the new
cached size. -/
def resizeBuffer (sys : BufSys) : Except Panic (BufSys × List BufEv) := do
  let r ← if sys.buf.needsDownload then download sys else Except.ok (sys, [])
  let sys1 := r.1
  let size := max sys1.buf.sizeVal 4
  if sys1.buf.bufferSize < size then
    let dev : DeviceBuf := ⟨size, List.replicate size 0⟩
    let r1 := sys1.buffers.nextIdOp sys1.heap
    let i := r1.2.2
    let r2 := r1.1.insertOp r1.2.1 i dev
    let m3 := r2.1.cleanOp r2.2
    let h3 := dropId r2.2 sys1.buf.id
    Except.ok ({ buf := { sys1.buf with id := i, bufferSize := size },
                 heap := h3, buffers := m3 }, r.2 ++ [.createBuffer size])
  else Except.ok (sys1, r.2)

/-- `Buffer::upload` (`src/buffer.rs:179-202`): if `needs_download` is set,
return immediately; otherwise resize, and unless the computed size is zero,
write the first `size` shadow bytes to the device buffer. -/
def upload (sys : BufSys) : Except Panic (BufSys × List BufEv) :=
  if sys.buf.needsDownload then .ok (sys, [])
  else do
    let r ← resizeBuffer sys
    let sys1 := r.1
    let size := sys1.buf.sizeVal
    if size = 0 then Except.ok (sys1, r.2)
    else
      match sys1.buffers.getOp sys1.buf.id with
      | none => Except.error .unwrapNone
      | some _ =>
          Except.ok ({ sys1 with
                        buffers := sys1.buffers.mapAt sys1.buf.id
                          (fun d => d.write (sys1.buf.shadow.take size)) },
                     r.2 ++ [.writeBuffer size])

/-! ## Texture synchronization (`src/texture.rs`) -/

/-- Round `n` up to a multiple of `a` (`Layout::align_to` + `pad_to_align`);
alignments are positive powers of two. -/
def alignUp (n a : Nat) : Nat := (n + a - 1) / a * a

/-- `bytes_per_row` (`src/texture.rs:157-164`): the row byte length padded to
`wgpu::COPY_BYTES_PER_ROW_ALIGNMENT = 256`. -/
def bytesPerRow (width pixelSize : Nat) : Nat := alignUp (width * pixelSize) 256

/-- Device-side events of the texture protocol. -/
inductive TexEv where
  /-- `queue.write_texture` of the shadow bytes -/
  | writeTexture (size : Nat)
  /-- staging copy + blocking map + `ptr::copy_nonoverlapping` into the shadow -/
  | copyToShadow (size : Nat)
deriving DecidableEq

/-- The fields of `Texture2d<Format>` the claims are about: the row-padded
CPU shadow bytes, the device texture contents (same padded layout), the
extent, the pixel byte size, and the two independent dirty flags. -/
structure TexSys where
  shadow : List Nat
  device : List Nat
  width : Nat
  height : Nat
  pixelSize : Nat
  needsUpload : Bool
  needsDownload : Bool
deriving DecidableEq

/-- `TextureStorageD2::size`: full padded image byte size. -/
def texSize (t : TexSys) : Nat := bytesPerRow t.width t.pixelSize * t.height

/-- Byte offset computed by `TextureStorageData::index` for `(x, y, 0)`:
`y * bytes_per_row + x * size_of::<Data>()`. -/
def texOffset (t : TexSys) (x y : Nat) : Nat :=
  y * bytesPerRow t.width t.pixelSize + x * t.pixelSize

/-- Overwrite `bs.length` bytes of `l` starting at `off`. -/
def writeBytes (l : List Nat) (off : Nat) (bs : List Nat) : List Nat :=
  l.take off ++ bs ++ l.drop (off + bs.length)

/-- `Texture::mark_needs_upload`: unconditional store of `true`. -/
def texMarkNeedsUpload (t : TexSys) : TexSys := { t with needsUpload := true }

/-- `Texture::mark_needs_download`: unconditional store of `true`. -/
def texMarkNeedsDownload (t : TexSys) : TexSys := { t with needsDownload := true }

/-- `Texture::download` (`src/texture.rs:431-492`): `needs_download.swap(false)`
on entry; zero size skips the transfer; otherwise copy the device image into
a staging buffer of `size.max(4)` bytes, block, and copy into the shadow. -/
def texDownload (t : TexSys) : TexSys × List TexEv :=
  if t.needsDownload = false then (t, [])
  else
    let t1 := { t with needsDownload := false }
    let size := texSize t1
    if size = 0 then (t1, [])
    else
      let sz := max size 4
      let staged := (t1.device ++ List.replicate (sz - t1.device.length) 0).take sz
      ({ t1 with shadow := staged ++ t1.shadow.drop sz }, [.copyToShadow sz])

/-- `Texture::upload` (`src/texture.rs:400-430`): `needs_upload.swap(false)`
on entry; zero size skips the transfer; otherwise `queue.write_texture`
pushes the whole row-padded shadow image to the device. -/
def texUpload (t : TexSys) : TexSys × List TexEv :=
  if t.needsUpload = false then (t, [])
  else
    let t1 := { t with needsUpload := false }
    let size := texSize t1
    if size = 0 then (t1, [])
    else ({ t1 with device := t1.shadow }, [.writeTexture size])

/-- `IndexMut for Texture2d` (`src/texture.rs:587-595`): assert the
coordinate is in bounds, `download()`, `mark_needs_upload()`, and hand out a
mutable reference into the shadow at the padded offset; writing `v` through
it stores the pixel's `pixelSize` bytes (byte content abstracted as `v`). -/
def texWritePixel (t : TexSys) (x y : Nat) (v : Nat) : Option TexSys :=
  if x < t.width ∧ y < t.height then
    let t1 := (texDownload t).1
    let t2 := texMarkNeedsUpload t1
    some { t2 with shadow := writeBytes t2.shadow (texOffset t2 x y) (List.replicate t2.pixelSize v) }
  else none

/-! ## Generated growable layout (`shatter-macro/src/shatter.rs:668-790`) -/

/-- Layout constants of a generated unsized buffer type: the sized head's
size/alignment and the trailing array item's size/alignment. -/
structure VecParams where
  headSize : Nat
  headAlign : Nat
  itemSize : Nat
  itemAlign : Nat
deriving DecidableEq

/-- Panics of the generated `grow`. -/
inductive GrowPanic where
  /-- `assert!(size_of::<Item>() != 0, "capacity overflow")` -/
  | capacityOverflow
  /-- `.unwrap()` on `Layout::array` / `Layout::extend` -/
  | layoutOverflow
  /-- `assert!(new_layout.size() <= isize::MAX as usize, "Allocation too large")` -/
  | allocTooLarge
deriving DecidableEq

/-- `BufferData::init` for the generated unsized type: `(0, cap)` with
`cap = !0` for zero-sized items, else `0`. -/
def vecInit (p : VecParams) : Nat × Nat :=
  (0, if p.itemSize = 0 then usizeMax else 0)

/-- `BufferData::size`: `size_of::<Sized>() + length * size_of::<Item>()`. -/
def vecSize (p : VecParams) (st : Nat × Nat) : Nat := p.headSize + st.1 * p.itemSize

/-- `sized_layout.extend(Layout::array::<Item>(cap)).pad_to_align().size()`:
the total byte extent of the allocation at capacity `cap`. -/
def vecLayoutSize (p : VecParams) (cap : Nat) : Nat :=
  alignUp (alignUp p.headSize p.itemAlign + cap * p.itemSize) (max p.headAlign p.itemAlign)

/-- `Layout::array::<Item>(n)` succeeds iff the array bytes fit below
`isize::MAX` after alignment headroom (std's check). -/
def arrayLayoutOk (p : VecParams) (n : Nat) : Prop :=
  n * p.itemSize ≤ isizeMax - (p.itemAlign - 1)

/-- `sized_layout.extend(array_layout)` succeeds iff the combined size fits
below `isize::MAX` after alignment headroom (std's check). -/
def extendLayoutOk (p : VecParams) (n : Nat) : Prop :=
  alignUp p.headSize p.itemAlign + n * p.itemSize ≤ isizeMax - (max p.headAlign p.itemAlign - 1)

instance (p : VecParams) (n : Nat) : Decidable (arrayLayoutOk p n) := by
  unfold arrayLayoutOk; infer_instance

instance (p : VecParams) (n : Nat) : Decidable (extendLayoutOk p n) := by
  unfold extendLayoutOk; infer_instance

/-- The generated `BufferVec::grow`: reject zero-sized items; double the
capacity (`0 → 1`); build the new layout (its `unwrap`s and the explicit
`Allocation too large` assert are the overflow guards); reallocate — the
realloc branch also rebuilds the old layout with the same `unwrap`s.  The
successful result is the state with the doubled capacity. -/
def vecGrow (p : VecParams) (st : Nat × Nat) : Except GrowPanic (Nat × Nat) :=
  if p.itemSize = 0 then .error .capacityOverflow
  else
    let newCap := if st.2 = 0 then 1 else 2 * st.2
    if ¬ arrayLayoutOk p newCap then .error .layoutOverflow
    else if ¬ extendLayoutOk p newCap then .error .layoutOverflow
    else if isizeMax < vecLayoutSize p newCap then .error .allocTooLarge
    else if st.2 = 0 ∧ p.headSize = 0 then .ok (st.1, newCap)
    else if ¬ arrayLayoutOk p st.2 then .error .layoutOverflow
    else if ¬ extendLayoutOk p st.2 then .error .layoutOverflow
    else .ok (st.1, newCap)

/-- The generated `BufferVec::push`: grow when `length == capacity`, write
the item past the head, then `length += 1`.  Also returns the capacity if a
growth happened (the "growth point" observation). -/
def vecPush (p : VecParams) (st : Nat × Nat) : Except GrowPanic ((Nat × Nat) × Option Nat) :=
  if st.1 = st.2 then do
    let st2 ← vecGrow p st
    .ok ((st2.1 + 1, st2.2), some st2.2)
  else .ok ((st.1 + 1, st.2), none)

/-- `n` sequential pushes from `init`, collecting the capacities observed at
each growth point. -/
def vecPushN (p : VecParams) : Nat → Except GrowPanic ((Nat × Nat) × List Nat)
  | 0 => .ok (vecInit p, [])
  | n + 1 => do
      let r ← vecPushN p n
      let r2 ← vecPush p r.1
      .ok (r2.1, r.2 ++ r2.2.toList)

/-! ## Concrete states used to instantiate theorems with hypotheses -/

/-- A buffer of 8 bytes whose device copy (`[5, …]`) is newer than the shadow
(`[9, …]`): `needs_download` is set. -/
def sysDirty8 : BufSys :=
  ⟨⟨[9, 9, 9, 9, 9, 9, 9, 9], 8, ⟨0, 0⟩, 8, true⟩, [1],
   ⟨[(⟨0, 0⟩, ⟨8, [5, 5, 5, 5, 5, 5, 5, 5]⟩)], 1⟩⟩

/-- A buffer whose computed size is 2 bytes (positive, below the 4-byte
minimum) with a pending download. -/
def sysSmall2 : BufSys :=
  ⟨⟨[9, 9], 2, ⟨0, 0⟩, 4, true⟩, [1], ⟨[(⟨0, 0⟩, ⟨4, [5, 5, 5, 5]⟩)], 1⟩⟩

/-- A clean buffer whose computed size (12) exceeds the cached device size
(8): the next `resize_buffer` reallocates. -/
def sysGrow12 : BufSys :=
  ⟨⟨[7, 7, 7, 7, 7, 7, 7, 7, 7, 7, 7, 7], 12, ⟨0, 0⟩, 8, false⟩, [1],
   ⟨[(⟨0, 0⟩, ⟨8, [5, 5, 5, 5, 5, 5, 5, 5]⟩)], 1⟩⟩

/-- A clean buffer of 3 bytes (positive, below the 4-byte minimum), device
buffer already big enough. -/
def sysSmall3Clean : BufSys :=
  ⟨⟨[9, 9, 9], 3, ⟨0, 0⟩, 4, false⟩, [1], ⟨[(⟨0, 0⟩, ⟨4, [5, 5, 5, 5]⟩)], 1⟩⟩

/-- A buffer of computed size 0 with a pending download. -/
def sysZeroDirty : BufSys :=
  ⟨⟨[], 0, ⟨0, 0⟩, 4, true⟩, [1], ⟨[(⟨0, 0⟩, ⟨4, [5, 5, 5, 5]⟩)], 1⟩⟩

/-- An empty runtime: no cached descriptors, no realized layouts. -/
def emptyInstance : InstanceState := ⟨[], [], ⟨[], 0⟩, 0⟩

/-- A one-entry resource store whose identity's counter reads 1 (one live
tracked clone). -/
def storeOne : IdMap Nat := ⟨[(⟨0, 0⟩, 42)], 1⟩

/-- A 4×2 RGBA8-like texture (pixel size 4, rows padded to 256 bytes) whose
device copy is newer than the shadow. -/
def texDirty : TexSys :=
  ⟨List.replicate 512 7, List.replicate 512 3, 4, 2, 4, false, true⟩

/-- Layout constants of a generated type with a 16-byte head and 8-byte
items. -/
def vp16x8 : VecParams := ⟨16, 8, 8, 8⟩

/-- Layout constants of a generated type whose trailing items are zero-sized. -/
def vpZst : VecParams := ⟨16, 8, 0, 1⟩

/-- Layout constants whose first growth already exceeds the address-space
bound (`2^62`-byte items). -/
def vpHuge : VecParams := ⟨0, 1, 2 ^ 62, 1⟩

/-- A 4×2 texture whose shadow was written (`needs_upload` set). -/
def texUp : TexSys :=
  ⟨List.replicate 512 7, List.replicate 512 3, 4, 2, 4, true, false⟩

/-- A 4×2 texture with both flags clear. -/
def texClean : TexSys :=
  ⟨List.replicate 512 7, List.replicate 512 3, 4, 2, 4, false, false⟩

/-! ## Theorems -/

/-- C1: for every buffer with `needs_download` set, `upload()` is a no-op:
the result state is the input state itself (in particular the device buffer
contents in the store are unchanged and `needs_download` is still `true`)
and the event trace is empty (no `write_buffer` of shadow bytes happened). -/
theorem upload_noop_of_needs_download (sys : BufSys)
    (h : sys.buf.needsDownload = true) :
    upload sys = Except.ok (sys, []) := by
  simp [upload, h]

/-- Witness for `upload_noop_of_needs_download` at a concrete dirty buffer. -/
theorem upload_noop_of_needs_download_witness :
    sysDirty8.buf.needsDownload = true ∧ upload sysDirty8 = Except.ok (sysDirty8, []) :=
  ⟨by decide, upload_noop_of_needs_download sysDirty8 (by decide)⟩

/-- C3 counterexample: on a concrete buffer with a pending download of 8
bytes, the download trace *begins* with the flag-clearing event and *ends*
with the byte copy into the shadow — the flag is cleared optimistically as
the first step, not as the final step after the copy, refuting the claim as
stated. -/
theorem download_flag_not_cleared_last_counterexample :
    (download sysDirty8).map (fun r => (r.2.head?, r.2.getLast?, r.1.buf.needsDownload))
        = Except.ok (some BufEv.clearFlag, some (BufEv.copyShadow 8), false) ∧
      BufEv.clearFlag ≠ BufEv.copyShadow 8 := by
  exact ⟨rfl, by decide⟩

/-- C3 amended: on every actual transfer (`needs_download` set, non-zero
size — hence at least 4 — and a realized device buffer), the flag is cleared
as the *first* step of the download sequence (the atomic test-and-clear on
entry); the staging copy, queue submission, blocking wait and byte copy into
the shadow then run with the flag already false, the byte copy being the
final step, and the flag remains false at the end. -/
theorem download_clears_flag_first (sys : BufSys) (dev : DeviceBuf)
    (hnd : sys.buf.needsDownload = true) (hsz : 4 ≤ sys.buf.sizeVal)
    (hdev : sys.buffers.getOp sys.buf.id = some dev) :
    download sys =
      Except.ok
        (⟨⟨(dev.contents ++
              List.replicate (max sys.buf.sizeVal 4 - dev.contents.length) 0).take
                (max sys.buf.sizeVal 4) ++ sys.buf.shadow.drop (max sys.buf.sizeVal 4),
            sys.buf.sizeVal, sys.buf.id, sys.buf.bufferSize, false⟩,
          sys.heap, sys.buffers⟩,
         [BufEv.clearFlag, BufEv.createStaging (max sys.buf.sizeVal 4),
          BufEv.copySubmit (max sys.buf.sizeVal 4), BufEv.blockWait,
          BufEv.copyShadow (max sys.buf.sizeVal 4)]) := by
  have h0 : ¬ sys.buf.sizeVal = 0 := by omega
  have h4 : ¬ sys.buf.sizeVal < 4 := by omega
  simp [download, hnd, h0, h4, hdev]

/-- Witness for `download_clears_flag_first` at the concrete dirty buffer. -/
theorem download_clears_flag_first_witness :
    download sysDirty8 =
      Except.ok
        (⟨⟨((⟨8, [5, 5, 5, 5, 5, 5, 5, 5]⟩ : DeviceBuf).contents ++
              List.replicate (max sysDirty8.buf.sizeVal 4 -
                (⟨8, [5, 5, 5, 5, 5, 5, 5, 5]⟩ : DeviceBuf).contents.length) 0).take
                (max sysDirty8.buf.sizeVal 4) ++
              sysDirty8.buf.shadow.drop (max sysDirty8.buf.sizeVal 4),
            sysDirty8.buf.sizeVal, sysDirty8.buf.id, sysDirty8.buf.bufferSize, false⟩,
          sysDirty8.heap, sysDirty8.buffers⟩,
         [BufEv.clearFlag, BufEv.createStaging (max sysDirty8.buf.sizeVal 4),
          BufEv.copySubmit (max sysDirty8.buf.sizeVal 4), BufEv.blockWait,
          BufEv.copyShadow (max sysDirty8.buf.sizeVal 4)]) :=
  download_clears_flag_first sysDirty8 ⟨8, [5, 5, 5, 5, 5, 5, 5, 5]⟩ (by decide) (by decide) rfl

/-- C4 counterexample: a buffer whose computed size is 2 bytes (positive,
below the 4-byte minimum) with a pending download: `download()` hits
`panic!("wtf")` instead of rounding the size up and succeeding. -/
theorem download_small_size_panics_counterexample :
    download sysSmall2 = Except.error Panic.wtf := by
  rfl

/-- Looking up an identity right after inserting it finds the inserted
value (the store key is a clone with the same value). -/
theorem getOp_insertOp_self {α : Type} (m : IdMap α) (h : Heap) (i : Id) (v : α) :
    ((m.insertOp h i v).1).getOp i = some v := by
  unfold IdMap.insertOp IdMap.getOp cloneId
  have hnone : (m.entries.filter (fun e => !(e.1.val == i.val))).find?
      (fun e => e.1.val == i.val) = none := by
    rw [List.find?_eq_none]
    intro e he
    have hm := List.mem_filter.1 he
    simpa using hm.2
  simp [List.find?_append, hnone]

/-- C4 amended: zero computed sizes skip the transfer in both directions
(`download` only clears the flag, `upload` does nothing); *allocation* sizes
are rounded up to the 4-byte minimum (`Buffer::new` creates and records a
device buffer of `size.max(4)` bytes); but a `download` whose computed size
is positive and below 4 bytes panics (`panic!("wtf")`) instead of rounding
up, while an `upload` at such a size proceeds, writing the unrounded number
of shadow bytes. -/
theorem degenerate_size_handling :
    (∀ sys : BufSys, sys.buf.needsDownload = true → sys.buf.sizeVal = 0 →
        download sys = Except.ok (⟨⟨sys.buf.shadow, sys.buf.sizeVal, sys.buf.id,
          sys.buf.bufferSize, false⟩, sys.heap, sys.buffers⟩, [BufEv.clearFlag])) ∧
    (∀ sys : BufSys, sys.buf.needsDownload = false → sys.buf.sizeVal = 0 →
        4 ≤ sys.buf.bufferSize → upload sys = Except.ok (sys, [])) ∧
    (∀ sys : BufSys, sys.buf.needsDownload = true → 0 < sys.buf.sizeVal →
        sys.buf.sizeVal < 4 → download sys = Except.error Panic.wtf) ∧
    (∀ (shadow : List Nat) (v : Nat) (h : Heap) (m : IdMap DeviceBuf),
        (bufferNew shadow v h m).1.buf.bufferSize = max v 4 ∧
        ((bufferNew shadow v h m).1.buffers).getOp (bufferNew shadow v h m).1.buf.id
          = some ⟨max v 4, List.replicate (max v 4) 0⟩) ∧
    (∀ (sys : BufSys) (dev : DeviceBuf), sys.buf.needsDownload = false →
        0 < sys.buf.sizeVal → sys.buf.sizeVal < 4 → 4 ≤ sys.buf.bufferSize →
        sys.buffers.getOp sys.buf.id = some dev →
        upload sys = Except.ok
          (⟨sys.buf, sys.heap, sys.buffers.mapAt sys.buf.id
              (fun d => d.write (sys.buf.shadow.take sys.buf.sizeVal))⟩,
           [BufEv.writeBuffer sys.buf.sizeVal])) := by
  refine ⟨?_, ?_, ?_, ?_, ?_⟩
  · intro sys hnd hsz
    simp [download, hnd, hsz]
  · intro sys hnd hsz hbs
    have hA : ¬ sys.buf.bufferSize < sys.buf.sizeVal := by omega
    have hB : ¬ sys.buf.bufferSize < 4 := by omega
    simp [upload, resizeBuffer, Bind.bind, Except.bind, hnd, hA, hB, hsz]
  · intro sys hnd hpos hlt
    have h0 : ¬ sys.buf.sizeVal = 0 := by omega
    simp [download, hnd, h0, hlt]
  · intro shadow v h m
    refine ⟨rfl, ?_⟩
    exact getOp_insertOp_self _ _ _ _
  · intro sys dev hnd hpos hlt hbs hdev
    have hA : ¬ sys.buf.bufferSize < sys.buf.sizeVal := by omega
    have hB : ¬ sys.buf.bufferSize < 4 := by omega
    have h0 : ¬ sys.buf.sizeVal = 0 := by omega
    simp [upload, resizeBuffer, Bind.bind, Except.bind, hnd, hA, hB, h0, hdev]

/-- Witness for `degenerate_size_handling`, instantiating every hypothesis:
the zero-size conjuncts at a zero-size buffer, the panic conjunct at the
2-byte buffer, the allocation conjunct at size 3, and the upload conjunct at
the clean 3-byte buffer. -/
theorem degenerate_size_handling_witness :
    (download sysZeroDirty = Except.ok (⟨⟨sysZeroDirty.buf.shadow, sysZeroDirty.buf.sizeVal,
        sysZeroDirty.buf.id, sysZeroDirty.buf.bufferSize, false⟩, sysZeroDirty.heap,
        sysZeroDirty.buffers⟩, [BufEv.clearFlag])) ∧
    (download sysSmall2 = Except.error Panic.wtf) ∧
    ((bufferNew [9, 9, 9] 3 [] ⟨[], 0⟩).1.buf.bufferSize = max 3 4) ∧
    (upload sysSmall3Clean = Except.ok
      (⟨sysSmall3Clean.buf, sysSmall3Clean.heap, sysSmall3Clean.buffers.mapAt
          sysSmall3Clean.buf.id
          (fun d => d.write (sysSmall3Clean.buf.shadow.take sysSmall3Clean.buf.sizeVal))⟩,
       [BufEv.writeBuffer sysSmall3Clean.buf.sizeVal])) :=
  ⟨degenerate_size_handling.1 sysZeroDirty (by decide) (by decide),
   (degenerate_size_handling.2.2.1 sysSmall2 (by decide) (by decide) (by decide)),
   (degenerate_size_handling.2.2.2.1 [9, 9, 9] 3 [] ⟨[], 0⟩).1,
   degenerate_size_handling.2.2.2.2 sysSmall3Clean ⟨4, [5, 5, 5, 5]⟩ (by decide) (by decide)
     (by decide) (by decide) rfl⟩

/-- Counters below the appended region are unchanged. -/
theorem refCount_append_lt (h : Heap) (l : List Nat) (c : Nat) (hc : c < h.length) :
    refCount (h ++ l) c = refCount h c := by
  simp [refCount, List.getD, List.getElem?_append, hc]

/-- The freshly appended counter slot reads its initial value. -/
theorem refCount_append_self (h : Heap) (x : Nat) : refCount (h ++ [x]) h.length = x := by
  simp [refCount, List.getD, List.getElem?_append]

/-- Reading the counter slot just written. -/
theorem refCount_set_self (h : Heap) (c x : Nat) (hc : c < h.length) :
    refCount (h.set c x) c = x := by
  simp [refCount, List.getD, List.getElem?_set_self, hc]

/-- Writing one counter slot leaves the others unchanged. -/
theorem refCount_set_ne (h : Heap) (c d x : Nat) (hcd : c ≠ d) :
    refCount (h.set c x) d = refCount h d := by
  simp [refCount, List.getD, List.getElem?_set_ne hcd]

/-- Setting the slot just past a list rewrites the appended element. -/
theorem set_append_length (h : List Nat) (a b : Nat) : (h ++ [a]).set h.length b = h ++ [b] := by
  induction h with
  | nil => rfl
  | cons x xs ih => simp [ih]

/-- A `find?` by identity value skips a prefix that avoids that value. -/
theorem find?_val_append {α : Type} (v : Nat) (l1 l2 : List (Id × α))
    (hl : ∀ e ∈ l1, e.1.val ≠ v) :
    (l1 ++ l2).find? (fun e => e.1.val == v) = l2.find? (fun e => e.1.val == v) := by
  rw [List.find?_append]
  have hn : l1.find? (fun e => e.1.val == v) = none := by
    rw [List.find?_eq_none]
    intro e he
    simpa using hl e he
  simp [hn]

/-- C8: `resize_buffer` first forces a pending download (the trace starts
with the flag-clear of the download and the flag ends up false); with no
pending download, when the required size `max(T::size(state), 4)` does not
exceed the cached device size, the state is returned unchanged (same
identity, same cached size); and when it does exceed it, a device buffer of
the required size is created, a fresh identity (fresh value, fresh counter)
is installed, the cached size becomes the required size, and the store's
`clean` is the reclamation path for the old identity: after the call the old
identity's counter reads zero (when the buffer held its last reference), so
the store's next `clean()` finds no entry for it. -/
theorem resize_buffer_spec :
    (∀ sys : BufSys, sys.buf.needsDownload = false →
        max sys.buf.sizeVal 4 ≤ sys.buf.bufferSize →
        resizeBuffer sys = Except.ok (sys, [])) ∧
    (∀ sys : BufSys, sys.buf.needsDownload = false →
        sys.buf.bufferSize < max sys.buf.sizeVal 4 →
        sys.buf.id.ctr < sys.heap.length →
        refCount sys.heap sys.buf.id.ctr = 1 →
        sys.buf.id.val ≠ sys.buffers.nextId →
        (∀ e ∈ sys.buffers.entries, e.1.val = sys.buf.id.val → e.1.ctr = sys.buf.id.ctr) →
        (resizeBuffer sys).map (fun r => r.2)
            = Except.ok [BufEv.createBuffer (max sys.buf.sizeVal 4)] ∧
        (resizeBuffer sys).map (fun r => r.1.buf.id.val) = Except.ok sys.buffers.nextId ∧
        (resizeBuffer sys).map (fun r => r.1.buf.id.ctr) = Except.ok sys.heap.length ∧
        (resizeBuffer sys).map (fun r => r.1.buf.bufferSize)
            = Except.ok (max sys.buf.sizeVal 4) ∧
        (resizeBuffer sys).map (fun r => r.1.buf.needsDownload) = Except.ok false ∧
        (resizeBuffer sys).map (fun r => r.1.buf.shadow) = Except.ok sys.buf.shadow ∧
        (resizeBuffer sys).map (fun r => r.1.buffers.getOp r.1.buf.id)
            = Except.ok (some ⟨max sys.buf.sizeVal 4, List.replicate (max sys.buf.sizeVal 4) 0⟩) ∧
        (resizeBuffer sys).map (fun r => refCount r.1.heap sys.buf.id.ctr) = Except.ok 0 ∧
        (resizeBuffer sys).map (fun r => (r.1.buffers.cleanOp r.1.heap).getOp sys.buf.id)
            = Except.ok none) ∧
    (∀ (sys : BufSys) (dev : DeviceBuf), sys.buf.needsDownload = true →
        4 ≤ sys.buf.sizeVal → sys.buffers.getOp sys.buf.id = some dev →
        (resizeBuffer sys).map (fun r => r.1.buf.needsDownload) = Except.ok false ∧
        (resizeBuffer sys).map (fun r => r.2.head?) = Except.ok (some BufEv.clearFlag)) := by
  have h1mod : (1 : Nat) % u32Mod = 1 := Nat.mod_eq_of_lt (by norm_num [u32Mod])
  refine ⟨?_, ?_, ?_⟩
  · intro sys hnd hle
    rw [Nat.max_le] at hle
    have hA : ¬ sys.buf.bufferSize < sys.buf.sizeVal := by omega
    have hB : ¬ sys.buf.bufferSize < 4 := by omega
    simp [resizeBuffer, Bind.bind, Except.bind, hnd, hA, hB]
  · intro sys hnd hlt hctr hcnt hval hctrs
    have hor : sys.buf.bufferSize < sys.buf.sizeVal ∨ sys.buf.bufferSize < 4 :=
      lt_sup_iff.mp hlt
    have holdcnt : refCount (sys.heap ++ [1]) sys.buf.id.ctr = 1 := by
      rw [refCount_append_lt _ _ _ hctr, hcnt]
    have hdropped : refCount (dropId (sys.heap ++ [1]) sys.buf.id) sys.buf.id.ctr = 0 := by
      unfold dropId
      rw [holdcnt]
      have he : 1 + (u32Mod - 1) = u32Mod := by norm_num [u32Mod]
      rw [he, Nat.mod_self]
      exact refCount_set_self _ _ _ (by simp; omega)
    refine ⟨?_, ?_, ?_, ?_, ?_, ?_, ?_, ?_, ?_⟩
    · simp [resizeBuffer, Bind.bind, Except.bind, Except.map, hnd, hor]
    · simp [resizeBuffer, Bind.bind, Except.bind, Except.map, IdMap.nextIdOp, hnd, hor]
    · simp [resizeBuffer, Bind.bind, Except.bind, Except.map, IdMap.nextIdOp, hnd, hor]
    · simp [resizeBuffer, Bind.bind, Except.bind, Except.map, hnd, hor]
    · simp [resizeBuffer, Bind.bind, Except.bind, Except.map, hnd, hor]
    · simp [resizeBuffer, Bind.bind, Except.bind, Except.map, hnd, hor]
    · simp [resizeBuffer, Bind.bind, Except.bind, Except.map, IdMap.nextIdOp, IdMap.insertOp,
        IdMap.cleanOp, IdMap.getOp, cloneId, refCount_append_self, h1mod, set_append_length,
        List.filter_append, hnd, hor]
    · simp [resizeBuffer, Bind.bind, Except.bind, Except.map, IdMap.nextIdOp, IdMap.insertOp,
        cloneId, refCount_append_self, h1mod, set_append_length, hnd, hor, hdropped]
    · simp [resizeBuffer, Bind.bind, Except.bind, Except.map, IdMap.nextIdOp, IdMap.insertOp,
        IdMap.cleanOp, IdMap.getOp, cloneId, refCount_append_self, h1mod, set_append_length,
        List.filter_append, hnd, hor]
      constructor
      · intro a b hmem hlive1 hlive2 hnew hv
        have hctreq := hctrs (a, b) hmem hv
        rw [hctreq, hdropped] at hlive1
        exact absurd hlive1 (by omega)
      · intro hlive hv
        exact hval hv.symm
  · intro sys dev hnd hsz hdev
    have h0 : ¬ sys.buf.sizeVal = 0 := by omega
    have h4 : ¬ sys.buf.sizeVal < 4 := by omega
    have hdl : download sys = Except.ok
        (⟨⟨(dev.contents ++
              List.replicate (max sys.buf.sizeVal 4 - dev.contents.length) 0).take
                (max sys.buf.sizeVal 4) ++ sys.buf.shadow.drop (max sys.buf.sizeVal 4),
            sys.buf.sizeVal, sys.buf.id, sys.buf.bufferSize, false⟩,
          sys.heap, sys.buffers⟩,
         [BufEv.clearFlag, BufEv.createStaging (max sys.buf.sizeVal 4),
          BufEv.copySubmit (max sys.buf.sizeVal 4), BufEv.blockWait,
          BufEv.copyShadow (max sys.buf.sizeVal 4)]) := by
      simp [download, hnd, h0, h4, hdev]
    by_cases hg : sys.buf.bufferSize < sys.buf.sizeVal ∨ sys.buf.bufferSize < 4
    · constructor
      · simp [resizeBuffer, Bind.bind, Except.bind, Except.map, hnd, hdl, hg]
      · simp [resizeBuffer, Bind.bind, Except.bind, Except.map, hnd, hdl, hg]
    · constructor
      · simp [resizeBuffer, Bind.bind, Except.bind, Except.map, hnd, hdl, hg]
      · simp [resizeBuffer, Bind.bind, Except.bind, Except.map, hnd, hdl, hg]

/-- Witness for `resize_buffer_spec`: the no-grow part at the clean 3-byte
buffer, the grow part at the buffer whose size outgrew its device buffer,
and the pending-download part at the dirty buffer. -/
theorem resize_buffer_spec_witness :
    (resizeBuffer sysSmall3Clean = Except.ok (sysSmall3Clean, [])) ∧
    ((resizeBuffer sysGrow12).map (fun r => r.2)
        = Except.ok [BufEv.createBuffer (max sysGrow12.buf.sizeVal 4)] ∧
      (resizeBuffer sysGrow12).map (fun r => r.1.buf.id.val)
        = Except.ok sysGrow12.buffers.nextId ∧
      (resizeBuffer sysGrow12).map (fun r => r.1.buf.id.ctr)
        = Except.ok sysGrow12.heap.length ∧
      (resizeBuffer sysGrow12).map (fun r => r.1.buf.bufferSize)
        = Except.ok (max sysGrow12.buf.sizeVal 4) ∧
      (resizeBuffer sysGrow12).map (fun r => r.1.buf.needsDownload) = Except.ok false ∧
      (resizeBuffer sysGrow12).map (fun r => r.1.buf.shadow)
        = Except.ok sysGrow12.buf.shadow ∧
      (resizeBuffer sysGrow12).map (fun r => r.1.buffers.getOp r.1.buf.id)
        = Except.ok (some ⟨max sysGrow12.buf.sizeVal 4,
            List.replicate (max sysGrow12.buf.sizeVal 4) 0⟩) ∧
      (resizeBuffer sysGrow12).map (fun r => refCount r.1.heap sysGrow12.buf.id.ctr)
        = Except.ok 0 ∧
      (resizeBuffer sysGrow12).map
          (fun r => (r.1.buffers.cleanOp r.1.heap).getOp sysGrow12.buf.id)
        = Except.ok none) ∧
    ((resizeBuffer sysDirty8).map (fun r => r.1.buf.needsDownload) = Except.ok false ∧
      (resizeBuffer sysDirty8).map (fun r => r.2.head?) = Except.ok (some BufEv.clearFlag)) :=
  ⟨resize_buffer_spec.1 sysSmall3Clean (by decide) (by decide),
   resize_buffer_spec.2.1 sysGrow12 (by decide) (by decide) (by decide) (by decide) (by decide)
     (by decide),
   resize_buffer_spec.2.2 sysDirty8 ⟨8, [5, 5, 5, 5, 5, 5, 5, 5]⟩ (by decide) (by decide) rfl⟩


/-- A descriptor, missed then appended, is found by the next cache lookup. -/
theorem cacheFind_append_self (c : List (LayoutDescriptor × Id)) (d : LayoutDescriptor)
    (i : Id) (h : cacheFind c d = none) : cacheFind (c ++ [(d, i)]) d = some i := by
  unfold cacheFind at h ⊢
  rw [List.find?_append]
  have h2 : c.find? (fun e => e.1 == d) = none := by
    cases hf : c.find? (fun e => e.1 == d) with
    | none => rfl
    | some e => rw [hf] at h; simp at h
  simp [h2]

/-- Shared helper: resolving the same descriptor twice in a row yields the
same identity value, and the second resolution changes neither the resource
store entries nor the device-object creation count. -/
theorem getBindGroupLayout_idem (s : InstanceState) (desc : LayoutDescriptor) :
    ((getBindGroupLayout (getBindGroupLayout s desc).1 desc).2).val
        = ((getBindGroupLayout s desc).2).val ∧
    ((getBindGroupLayout (getBindGroupLayout s desc).1 desc).1).layouts.entries
        = ((getBindGroupLayout s desc).1).layouts.entries ∧
    ((getBindGroupLayout (getBindGroupLayout s desc).1 desc).1).created
        = ((getBindGroupLayout s desc).1).created := by
  cases h : cacheFind s.layoutCache desc with
  | some i => simp [getBindGroupLayout, h, cloneId]
  | none =>
      have h2 : cacheFind (s.layoutCache ++ [(desc, ⟨s.layouts.nextId, s.heap.length + 1⟩)])
          desc = some ⟨s.layouts.nextId, s.heap.length + 1⟩ :=
        cacheFind_append_self _ _ _ h
      simp [getBindGroupLayout, h, h2, IdMap.nextIdOp, cloneUntracked, cloneId, IdMap.insertOp]

/-- C5: resolving the same (canonicalized) bind-group-layout descriptor value
twice returns the same identity on both calls; the second resolution is a
cache hit that adds no entry to the resource store and creates no device
object. -/
theorem resolve_layout_descriptor_idempotent (s : InstanceState) (desc : LayoutDescriptor) :
    ((getBindGroupLayout (getBindGroupLayout s desc).1 desc).2).val
        = ((getBindGroupLayout s desc).2).val ∧
    ((getBindGroupLayout (getBindGroupLayout s desc).1 desc).1).layouts.entries
        = ((getBindGroupLayout s desc).1).layouts.entries ∧
    ((getBindGroupLayout (getBindGroupLayout s desc).1 desc).1).created
        = ((getBindGroupLayout s desc).1).created :=
  getBindGroupLayout_idem s desc

/-- C2 counterexample: two bind-group-layout descriptors whose entry lists
are permutations of each other — `[(0, ty 0), (1, ty 1)]` and
`[(1, ty 1), (0, ty 0)]` — resolve through `get_bind_group_layout` to
*different* identities (values 0 and 1): the runtime itself performs no
sorting, and the cache compares entry vectors in enumeration order. -/
theorem permuted_descriptors_distinct_counterexample :
    ((getBindGroupLayout (getBindGroupLayout emptyInstance
        [⟨0, 0⟩, ⟨1, 1⟩]).1 [⟨1, 1⟩, ⟨0, 0⟩]).2).val
      ≠ ((getBindGroupLayout emptyInstance [⟨0, 0⟩, ⟨1, 1⟩]).2).val := by
  decide

/-- `insertSorted` permutes consing. -/
theorem insertSorted_perm (e : LayoutEntry) (l : List LayoutEntry) :
    (insertSorted e l).Perm (e :: l) := by
  induction l with
  | nil => exact List.Perm.refl _
  | cons x xs ih =>
      simp only [insertSorted]
      split
      · exact List.Perm.refl _
      · exact (ih.cons x).trans (List.Perm.swap e x xs)

/-- The generator's sort permutes its input. -/
theorem sortByBinding_perm (l : List LayoutEntry) : (sortByBinding l).Perm l := by
  induction l with
  | nil => exact List.Perm.refl _
  | cons x xs ih => exact (insertSorted_perm x (sortByBinding xs)).trans (ih.cons x)

/-- `insertSorted` preserves sortedness by binding index. -/
theorem insertSorted_sorted (e : LayoutEntry) (l : List LayoutEntry)
    (h : l.Pairwise (fun a b => a.binding ≤ b.binding)) :
    (insertSorted e l).Pairwise (fun a b => a.binding ≤ b.binding) := by
  induction l with
  | nil => simp [insertSorted]
  | cons x xs ih =>
      rw [List.pairwise_cons] at h
      simp only [insertSorted]
      split
      · rename_i hle
        rw [List.pairwise_cons]
        refine ⟨?_, List.pairwise_cons.2 h⟩
        intro b hb
        rcases List.mem_cons.1 hb with hbx | hbxs
        · exact hbx ▸ hle
        · exact le_trans hle (h.1 b hbxs)
      · rename_i hgt
        rw [List.pairwise_cons]
        refine ⟨?_, ih h.2⟩
        intro b hb
        have hb2 := (insertSorted_perm e xs).mem_iff.1 hb
        rcases List.mem_cons.1 hb2 with hbe | hbxs
        · exact hbe ▸ le_of_not_le hgt
        · exact h.1 b hbxs

/-- The generator's sort output is sorted by binding index. -/
theorem sortByBinding_sorted (l : List LayoutEntry) :
    (sortByBinding l).Pairwise (fun a b => a.binding ≤ b.binding) := by
  induction l with
  | nil => exact List.Pairwise.nil
  | cons x xs ih => exact insertSorted_sorted x (sortByBinding xs) ih

/-- Two permuted entry lists with pairwise distinct binding indices have the
same generator-canonicalized form. -/
theorem sortByBinding_eq_of_perm (l1 l2 : List LayoutEntry) (hperm : l1.Perm l2)
    (hnd : l1.Pairwise (fun a b => a.binding ≠ b.binding)) :
    sortByBinding l1 = sortByBinding l2 := by
  have hsymm : Symmetric (fun a b : LayoutEntry => a.binding ≠ b.binding) :=
    fun a b hab => hab.symm
  have hp : (sortByBinding l1).Perm (sortByBinding l2) :=
    (sortByBinding_perm l1).trans (hperm.trans (sortByBinding_perm l2).symm)
  have hnd1 : (sortByBinding l1).Pairwise (fun a b => a.binding ≠ b.binding) :=
    ((sortByBinding_perm l1).pairwise_iff @hsymm).2 hnd
  have hnd2 : (sortByBinding l2).Pairwise (fun a b => a.binding ≠ b.binding) :=
    (hp.pairwise_iff @hsymm).1 hnd1
  have hs1 : (sortByBinding l1).Pairwise
      (fun a b => a.binding < b.binding ∨ a = b) :=
    ((sortByBinding_sorted l1).and hnd1).imp (fun hab => Or.inl (lt_of_le_of_ne hab.1 hab.2))
  have hs2 : (sortByBinding l2).Pairwise
      (fun a b => a.binding < b.binding ∨ a = b) :=
    ((sortByBinding_sorted l2).and hnd2).imp (fun hab => Or.inl (lt_of_le_of_ne hab.1 hab.2))
  haveI : IsAntisymm LayoutEntry (fun a b => a.binding < b.binding ∨ a = b) := by
    constructor
    intro a b hab hba
    rcases hab with hab | hab
    · rcases hba with hba | hba
      · exact absurd hab (by omega)
      · exact hba.symm
    · exact hab
  exact List.eq_of_perm_of_sorted hp hs1 hs2

/-- C2 amended: the canonicalization lives in the code generator, not in the
runtime cache: `gen_entry_point_bindings` sorts each group's entries by
binding index when constructing the descriptor, so two binding-set
enumerations that are permutations of the same set of (binding, type)
entries (binding indices pairwise distinct) produce *equal* descriptor
values, and resolving the two generated descriptors through the runtime's
get-or-create cache yields the same identity.  (Descriptors handed to the
runtime without that sorting are compared in enumeration order, see the
counterexample.) -/
theorem generator_sorts_so_permutations_collide (l1 l2 : List LayoutEntry)
    (s : InstanceState) (hperm : l1.Perm l2)
    (hnd : l1.Pairwise (fun a b => a.binding ≠ b.binding)) :
    sortByBinding l1 = sortByBinding l2 ∧
    ((getBindGroupLayout (getBindGroupLayout s (sortByBinding l1)).1 (sortByBinding l2)).2).val
      = ((getBindGroupLayout s (sortByBinding l1)).2).val := by
  have heq := sortByBinding_eq_of_perm l1 l2 hperm hnd
  refine ⟨heq, ?_⟩
  rw [heq]
  exact (getBindGroupLayout_idem s (sortByBinding l2)).1

/-- Witness for `generator_sorts_so_permutations_collide` at the two-entry
permutation over the empty runtime. -/
theorem generator_sorts_so_permutations_collide_witness :
    sortByBinding [(⟨0, 0⟩ : LayoutEntry), ⟨1, 1⟩] = sortByBinding [⟨1, 1⟩, ⟨0, 0⟩] ∧
    ((getBindGroupLayout (getBindGroupLayout emptyInstance
        (sortByBinding [(⟨0, 0⟩ : LayoutEntry), ⟨1, 1⟩])).1
        (sortByBinding [(⟨1, 1⟩ : LayoutEntry), ⟨0, 0⟩])).2).val
      = ((getBindGroupLayout emptyInstance
          (sortByBinding [(⟨0, 0⟩ : LayoutEntry), ⟨1, 1⟩])).2).val :=
  generator_sorts_so_permutations_collide [⟨0, 0⟩, ⟨1, 1⟩] [⟨1, 1⟩, ⟨0, 0⟩] emptyInstance
    (by decide) (by decide)


/-- Counter reads step over a cons cell. -/
theorem refCount_cons_succ (a : Nat) (t : Heap) (k : Nat) :
    refCount (a :: t) (k + 1) = refCount t k := rfl

/-- The counter slot at the head of the appended block. -/
theorem refCount_append_at0 (h : Heap) (x : Nat) (l : List Nat) :
    refCount (h ++ x :: l) h.length = x := by
  induction h with
  | nil => rfl
  | cons a as ih => simp only [List.cons_append, List.length_cons, refCount_cons_succ, ih]

/-- The counter slot one past the head of the appended block. -/
theorem refCount_append_at1 (h : Heap) (x y : Nat) (l : List Nat) :
    refCount (h ++ x :: y :: l) (h.length + 1) = y := by
  induction h with
  | nil => rfl
  | cons a as ih => simp only [List.cons_append, List.length_cons, refCount_cons_succ, ih]

/-- Counter writes step over a cons cell. -/
theorem set_cons_succ (a : Nat) (t : List Nat) (k c : Nat) :
    (a :: t).set (k + 1) c = a :: t.set k c := rfl

/-- Setting the slot at the head of the appended block. -/
theorem set_append_at0 (h : List Nat) (x c : Nat) (l : List Nat) :
    (h ++ x :: l).set h.length c = h ++ c :: l := by
  induction h with
  | nil => rfl
  | cons a as ih => simp only [List.cons_append, List.length_cons, set_cons_succ, ih]

/-- Setting the slot one past the head of the appended block. -/
theorem set_append_at1 (h : List Nat) (x y c : Nat) (l : List Nat) :
    (h ++ x :: y :: l).set (h.length + 1) c = h ++ x :: c :: l := by
  induction h with
  | nil => rfl
  | cons a as ih => simp only [List.cons_append, List.length_cons, set_cons_succ, ih]

/-- `1 % 2^32 = 1`. -/
theorem one_mod_u32 : 1 % u32Mod = 1 := Nat.mod_eq_of_lt (by norm_num [u32Mod])

/-- Wrapping decrement from 1 reaches 0. -/
theorem drop_one_mod_u32 : (1 + (u32Mod - 1)) % u32Mod = 0 := by
  have he : 1 + (u32Mod - 1) = u32Mod := by norm_num [u32Mod]
  rw [he, Nat.mod_self]

/-- C10: on a cache miss, `get_bind_group_layout` returns the fresh identity
(counter slot `s.heap.length`, shared with the store key, reading 1), while
the descriptor cache receives an untracked clone: same value but a disjoint
fresh counter (slot `s.heap.length + 1`) reading 0.  A later hit returns a
clone of the cached identity, bumping only the untracked counter and leaving
the store key's count at 1.  Dropping both caller-held identities brings the
store key's counter to 0, so `clean()` evicts the store entry — even though
the descriptor cache still maps the descriptor to that identity value. -/
theorem cache_holds_untracked_clone (s : InstanceState) (desc : LayoutDescriptor)
    (hmiss : cacheFind s.layoutCache desc = none) :
    (getBindGroupLayout s desc).2 = ⟨s.layouts.nextId, s.heap.length⟩ ∧
    cacheFind (getBindGroupLayout s desc).1.layoutCache desc
      = some ⟨s.layouts.nextId, s.heap.length + 1⟩ ∧
    refCount (getBindGroupLayout s desc).1.heap (s.heap.length + 1) = 0 ∧
    refCount (getBindGroupLayout s desc).1.heap s.heap.length = 1 ∧
    (getBindGroupLayout (getBindGroupLayout s desc).1 desc).2
      = ⟨s.layouts.nextId, s.heap.length + 1⟩ ∧
    refCount (getBindGroupLayout (getBindGroupLayout s desc).1 desc).1.heap
      (s.heap.length + 1) = 1 ∧
    refCount (getBindGroupLayout (getBindGroupLayout s desc).1 desc).1.heap
      s.heap.length = 1 ∧
    refCount (dropId (dropId (getBindGroupLayout (getBindGroupLayout s desc).1 desc).1.heap
        ⟨s.layouts.nextId, s.heap.length⟩) ⟨s.layouts.nextId, s.heap.length + 1⟩)
      s.heap.length = 0 ∧
    ((getBindGroupLayout (getBindGroupLayout s desc).1 desc).1.layouts.cleanOp
        (dropId (dropId (getBindGroupLayout (getBindGroupLayout s desc).1 desc).1.heap
          ⟨s.layouts.nextId, s.heap.length⟩) ⟨s.layouts.nextId, s.heap.length + 1⟩)).getOp
      ⟨s.layouts.nextId, s.heap.length⟩ = none ∧
    cacheFind (getBindGroupLayout (getBindGroupLayout s desc).1 desc).1.layoutCache desc
      = some ⟨s.layouts.nextId, s.heap.length + 1⟩ := by
  have h2 : cacheFind (s.layoutCache ++ [(desc, ⟨s.layouts.nextId, s.heap.length + 1⟩)])
      desc = some ⟨s.layouts.nextId, s.heap.length + 1⟩ :=
    cacheFind_append_self _ _ _ hmiss
  refine ⟨?_, ?_, ?_, ?_, ?_, ?_, ?_, ?_, ?_, ?_⟩ <;>
    simp [getBindGroupLayout, hmiss, h2, IdMap.nextIdOp, cloneUntracked, cloneId,
      IdMap.insertOp, IdMap.cleanOp, IdMap.getOp, dropId, refCount_append_at0,
      refCount_append_at1, set_append_at0, set_append_at1, one_mod_u32, drop_one_mod_u32,
      List.filter_append]

/-- Witness for `cache_holds_untracked_clone`: the empty runtime and a
one-entry descriptor (`nextId = 0`, empty counter heap). -/
theorem cache_holds_untracked_clone_witness :
    (getBindGroupLayout emptyInstance [⟨0, 0⟩]).2
      = ⟨emptyInstance.layouts.nextId, emptyInstance.heap.length⟩ ∧
    cacheFind (getBindGroupLayout emptyInstance [⟨0, 0⟩]).1.layoutCache [⟨0, 0⟩]
      = some ⟨emptyInstance.layouts.nextId, emptyInstance.heap.length + 1⟩ ∧
    refCount (getBindGroupLayout emptyInstance [⟨0, 0⟩]).1.heap
      (emptyInstance.heap.length + 1) = 0 ∧
    refCount (getBindGroupLayout emptyInstance [⟨0, 0⟩]).1.heap
      emptyInstance.heap.length = 1 ∧
    (getBindGroupLayout (getBindGroupLayout emptyInstance [⟨0, 0⟩]).1 [⟨0, 0⟩]).2
      = ⟨emptyInstance.layouts.nextId, emptyInstance.heap.length + 1⟩ ∧
    refCount (getBindGroupLayout (getBindGroupLayout emptyInstance [⟨0, 0⟩]).1 [⟨0, 0⟩]).1.heap
      (emptyInstance.heap.length + 1) = 1 ∧
    refCount (getBindGroupLayout (getBindGroupLayout emptyInstance [⟨0, 0⟩]).1 [⟨0, 0⟩]).1.heap
      emptyInstance.heap.length = 1 ∧
    refCount (dropId (dropId
        (getBindGroupLayout (getBindGroupLayout emptyInstance [⟨0, 0⟩]).1 [⟨0, 0⟩]).1.heap
        ⟨emptyInstance.layouts.nextId, emptyInstance.heap.length⟩)
        ⟨emptyInstance.layouts.nextId, emptyInstance.heap.length + 1⟩)
      emptyInstance.heap.length = 0 ∧
    ((getBindGroupLayout (getBindGroupLayout emptyInstance [⟨0, 0⟩]).1 [⟨0, 0⟩]).1.layouts.cleanOp
        (dropId (dropId
          (getBindGroupLayout (getBindGroupLayout emptyInstance [⟨0, 0⟩]).1 [⟨0, 0⟩]).1.heap
          ⟨emptyInstance.layouts.nextId, emptyInstance.heap.length⟩)
          ⟨emptyInstance.layouts.nextId, emptyInstance.heap.length + 1⟩)).getOp
      ⟨emptyInstance.layouts.nextId, emptyInstance.heap.length⟩ = none ∧
    cacheFind (getBindGroupLayout (getBindGroupLayout emptyInstance
        [⟨0, 0⟩]).1 [⟨0, 0⟩]).1.layoutCache [⟨0, 0⟩]
      = some ⟨emptyInstance.layouts.nextId, emptyInstance.heap.length + 1⟩ :=
  cache_holds_untracked_clone emptyInstance [⟨0, 0⟩] (by decide)


/-- C6: dropping the last live tracked clone of a stored identity brings its
shared counter to zero; `clean()` then removes its entry, and a subsequent
`get()` for that identity finds nothing.  In general, `clean()` keeps
exactly the entries whose identity has a positive live-reference count. -/
theorem clean_reclaims_unreferenced {α : Type} (h : Heap) (m : IdMap α) (k : Id) (v : α)
    (hmem : (k, v) ∈ m.entries)
    (honly : ∀ e ∈ m.entries, e.1.val = k.val → e.1.ctr = k.ctr)
    (hctr : k.ctr < h.length)
    (hcnt : refCount h k.ctr = 1) :
    refCount (dropId h k) k.ctr = 0 ∧
    (m.cleanOp (dropId h k)).getOp k = none ∧
    (∀ (h2 : Heap) (e : Id × α),
      e ∈ (m.cleanOp h2).entries ↔ e ∈ m.entries ∧ 0 < refCount h2 e.1.ctr) := by
  have hzero : refCount (dropId h k) k.ctr = 0 := by
    unfold dropId
    rw [hcnt, drop_one_mod_u32]
    exact refCount_set_self _ _ _ hctr
  refine ⟨hzero, ?_, ?_⟩
  · unfold IdMap.cleanOp IdMap.getOp
    have hn : (m.entries.filter
        (fun e => decide (0 < refCount (dropId h k) e.1.ctr))).find?
        (fun e => e.1.val == k.val) = none := by
      rw [List.find?_eq_none]
      intro e he
      have hf := List.mem_filter.1 he
      intro hv
      have hv2 : e.1.val = k.val := by simpa using hv
      have hc := honly e hf.1 hv2
      rw [hc, hzero] at hf
      simpa using hf.2
    simp [hn]
  · intro h2 e
    unfold IdMap.cleanOp
    simp [List.mem_filter]

/-- Witness for `clean_reclaims_unreferenced` at the one-entry store whose
identity counter reads 1. -/
theorem clean_reclaims_unreferenced_witness :
    refCount (dropId [1] ⟨0, 0⟩) (0 : Nat) = 0 ∧
    (storeOne.cleanOp (dropId [1] ⟨0, 0⟩)).getOp ⟨0, 0⟩ = none ∧
    (∀ (h2 : Heap) (e : Id × Nat),
      e ∈ (storeOne.cleanOp h2).entries ↔ e ∈ storeOne.entries ∧ 0 < refCount h2 e.1.ctr) :=
  clean_reclaims_unreferenced [1] storeOne ⟨0, 0⟩ 42 (by decide) (by decide) (by decide)
    (by decide)

/-- `download` leaves the extent unchanged. -/
theorem texDownload_width (t : TexSys) : (texDownload t).1.width = t.width := by
  unfold texDownload
  split
  · rfl
  · dsimp only
    split
    · rfl
    · rfl

/-- `download` leaves the extent unchanged. -/
theorem texDownload_height (t : TexSys) : (texDownload t).1.height = t.height := by
  unfold texDownload
  split
  · rfl
  · dsimp only
    split
    · rfl
    · rfl

/-- `download` leaves the pixel size unchanged. -/
theorem texDownload_pixelSize (t : TexSys) : (texDownload t).1.pixelSize = t.pixelSize := by
  unfold texDownload
  split
  · rfl
  · dsimp only
    split
    · rfl
    · rfl

/-- `download` never touches `needs_upload`. -/
theorem texDownload_needsUpload (t : TexSys) : (texDownload t).1.needsUpload = t.needsUpload := by
  unfold texDownload
  split
  · rfl
  · dsimp only
    split
    · rfl
    · rfl

/-- `download` never touches the device image. -/
theorem texDownload_device (t : TexSys) : (texDownload t).1.device = t.device := by
  unfold texDownload
  split
  · rfl
  · dsimp only
    split
    · rfl
    · rfl

/-- `upload` never touches `needs_download`. -/
theorem texUpload_needsDownload (t : TexSys) :
    (texUpload t).1.needsDownload = t.needsDownload := by
  unfold texUpload
  split
  · rfl
  · dsimp only
    split
    · rfl
    · rfl

/-- C9: the texture's index-write (`index_mut`) downloads, unconditionally
sets `needs_upload` (whatever the flags were before), and writes through a
reference into the CPU shadow at the row-padded offset — the device image is
untouched by the write.  The two flags are tracked independently: marking or
clearing one never changes the other.  `upload()` transfers shadow bytes
only when `needs_upload` was set (clearing it), and does nothing at all
otherwise. -/
theorem texture_index_write_and_upload :
    (∀ (t : TexSys) (x y v : Nat), x < t.width → y < t.height →
      (texWritePixel t x y v).map (fun t2 => t2.needsUpload) = some true ∧
      (texWritePixel t x y v).map (fun t2 => t2.shadow)
        = some (writeBytes (texDownload t).1.shadow (texOffset t x y)
            (List.replicate t.pixelSize v)) ∧
      (texWritePixel t x y v).map (fun t2 => t2.device) = some t.device) ∧
    (∀ t : TexSys,
      (texMarkNeedsUpload t).needsDownload = t.needsDownload ∧
      (texMarkNeedsDownload t).needsUpload = t.needsUpload ∧
      (texUpload t).1.needsDownload = t.needsDownload ∧
      (texDownload t).1.needsUpload = t.needsUpload) ∧
    (∀ t : TexSys,
      (t.needsUpload = false → texUpload t = (t, [])) ∧
      (t.needsUpload = true → (texUpload t).1.needsUpload = false) ∧
      (∀ sz, TexEv.writeTexture sz ∈ (texUpload t).2 → t.needsUpload = true)) := by
  refine ⟨?_, ?_, ?_⟩
  · intro t x y v hx hy
    refine ⟨?_, ?_, ?_⟩
    · simp [texWritePixel, hx, hy, texMarkNeedsUpload]
    · simp [texWritePixel, hx, hy, texMarkNeedsUpload, texOffset, texDownload_width,
        texDownload_pixelSize]
    · simp [texWritePixel, hx, hy, texMarkNeedsUpload, texDownload_device]
  · intro t
    exact ⟨rfl, rfl, texUpload_needsDownload t, texDownload_needsUpload t⟩
  · intro t
    refine ⟨?_, ?_, ?_⟩
    · intro h
      simp [texUpload, h]
    · intro h
      unfold texUpload
      rw [h]
      simp only [Bool.true_eq_false, if_false, ite_false]
      split
      · rfl
      · rfl
    · intro sz hmem
      cases hu : t.needsUpload with
      | false => simp [texUpload, hu] at hmem
      | true => rfl

/-- Witness for `texture_index_write_and_upload`: the index-write part at the
dirty texture and in-bounds pixel (1, 1); the gating implications at the
clean and written textures. -/
theorem texture_index_write_and_upload_witness :
    ((texWritePixel texDirty 1 1 9).map (fun t2 => t2.needsUpload) = some true ∧
      (texWritePixel texDirty 1 1 9).map (fun t2 => t2.shadow)
        = some (writeBytes (texDownload texDirty).1.shadow (texOffset texDirty 1 1)
            (List.replicate texDirty.pixelSize 9)) ∧
      (texWritePixel texDirty 1 1 9).map (fun t2 => t2.device) = some texDirty.device) ∧
    (texUpload texClean = (texClean, [])) ∧
    ((texUpload texUp).1.needsUpload = false) :=
  ⟨texture_index_write_and_upload.1 texDirty 1 1 9 (by decide) (by decide),
   (texture_index_write_and_upload.2.2 texClean).1 (by decide),
   (texture_index_write_and_upload.2.2 texUp).2.1 (by decide)⟩

/-- `arrayLayoutOk` is antitone in the capacity. -/
theorem arrayLayoutOk_mono (p : VecParams) {a b : Nat} (hab : a ≤ b)
    (hb : arrayLayoutOk p b) : arrayLayoutOk p a := by
  unfold arrayLayoutOk at hb ⊢
  exact le_trans (Nat.mul_le_mul_right _ hab) hb

/-- `extendLayoutOk` is antitone in the capacity. -/
theorem extendLayoutOk_mono (p : VecParams) {a b : Nat} (hab : a ≤ b)
    (hb : extendLayoutOk p b) : extendLayoutOk p a := by
  unfold extendLayoutOk at hb ⊢
  have := Nat.mul_le_mul_right p.itemSize hab
  omega

/-- A successful `grow` at a power-of-two capacity: all overflow checks pass
and the capacity doubles. -/
theorem vecGrow_pow (p : VecParams) (len k : Nat) (hpos : 0 < p.itemSize)
    (ha : arrayLayoutOk p (2 ^ (k + 1))) (he : extendLayoutOk p (2 ^ (k + 1)))
    (hl : vecLayoutSize p (2 ^ (k + 1)) ≤ isizeMax) :
    vecGrow p (len, 2 ^ k) = Except.ok (len, 2 ^ (k + 1)) := by
  have h0 : ¬ p.itemSize = 0 := by omega
  have hne : ¬ (2 : Nat) ^ k = 0 := by positivity
  have h2 : 2 * 2 ^ k = 2 ^ (k + 1) := by ring
  have ha2 : arrayLayoutOk p (2 ^ k) :=
    arrayLayoutOk_mono p (Nat.pow_le_pow_right (by norm_num) (Nat.le_succ k)) ha
  have he2 : extendLayoutOk p (2 ^ k) :=
    extendLayoutOk_mono p (Nat.pow_le_pow_right (by norm_num) (Nat.le_succ k)) he
  simp [vecGrow, h0, hne, h2, ha, he, ha2, he2, Nat.not_lt.2 hl]

/-- The first `grow` (capacity 0 → 1): all overflow checks pass. -/
theorem vecGrow_zero (p : VecParams) (len : Nat) (hpos : 0 < p.itemSize)
    (ha : arrayLayoutOk p 1) (he : extendLayoutOk p 1)
    (hl : vecLayoutSize p 1 ≤ isizeMax) :
    vecGrow p (len, 0) = Except.ok (len, 1) := by
  have h0 : ¬ p.itemSize = 0 := by omega
  have ha0 : arrayLayoutOk p 0 := arrayLayoutOk_mono p (Nat.zero_le 1) ha
  have he0 : extendLayoutOk p 0 := extendLayoutOk_mono p (Nat.zero_le 1) he
  by_cases hh : p.headSize = 0
  · simp [vecGrow, h0, ha, he, hh, Nat.not_lt.2 hl]
  · simp [vecGrow, h0, ha, he, ha0, he0, hh, Nat.not_lt.2 hl]

set_option maxRecDepth 4000 in
/-- The growth invariant: after `n ≥ 1` pushes (item size positive, all
layouts up to the final capacity within the address-space bound), the state
is `(n, 2 ^ clog2 n)` and the growth points saw capacities
`2^0, …, 2^(clog2 n)`. -/
theorem vecPushN_growth (p : VecParams) (hpos : 0 < p.itemSize) :
    ∀ n : Nat, 1 ≤ n →
    (∀ c, c ≤ 2 ^ Nat.clog 2 n → arrayLayoutOk p c ∧ extendLayoutOk p c ∧
        vecLayoutSize p c ≤ isizeMax) →
    vecPushN p n = Except.ok ((n, 2 ^ Nat.clog 2 n),
      (List.range (Nat.clog 2 n + 1)).map (fun i => 2 ^ i)) := by
  intro n hn
  induction n, hn using Nat.le_induction with
  | base =>
      intro hsafe
      have hc1 : Nat.clog 2 1 = 0 := Nat.clog_one_right 2
      rw [hc1]
      have h0 : ¬ p.itemSize = 0 := by omega
      obtain ⟨ha, he, hl⟩ := hsafe 1 (by simp [hc1])
      have hg : vecGrow p 0 = Except.ok (0, 1) := vecGrow_zero p 0 hpos ha he hl
      simp [vecPushN, vecPush, vecInit, h0, Bind.bind, Except.bind, hg]
      decide
  | succ n hn ih =>
      intro hsafe
      have h2 : (1 : Nat) < 2 := by norm_num
      have hmono : Nat.clog 2 n ≤ Nat.clog 2 (n + 1) := Nat.clog_mono_right 2 (Nat.le_succ n)
      have hsafe_n : ∀ c, c ≤ 2 ^ Nat.clog 2 n → arrayLayoutOk p c ∧ extendLayoutOk p c ∧
          vecLayoutSize p c ≤ isizeMax := by
        intro c hc
        exact hsafe c (le_trans hc (Nat.pow_le_pow_right (by norm_num) hmono))
      have hle : n ≤ 2 ^ Nat.clog 2 n := Nat.le_pow_clog h2 n
      have ihn := ih hsafe_n
      rcases lt_or_eq_of_le hle with hlt | heq
      · -- no growth: length < capacity
        have hck : Nat.clog 2 (n + 1) = Nat.clog 2 n :=
          le_antisymm ((Nat.le_pow_iff_clog_le h2).1 hlt) hmono
        have hne : ¬ n = 2 ^ Nat.clog 2 n := by omega
        rw [hck]
        simp [vecPushN, Bind.bind, Except.bind, ihn, vecPush, hne]
      · -- growth: length reached the capacity, which doubles
        have hkk : Nat.clog 2 (n + 1) = Nat.clog 2 n + 1 := by
          have hub : n + 1 ≤ 2 ^ (Nat.clog 2 n + 1) := by
            have h1 : 1 ≤ 2 ^ Nat.clog 2 n := Nat.one_le_pow _ _ (by norm_num)
            have hp : 2 ^ (Nat.clog 2 n + 1) = 2 * 2 ^ Nat.clog 2 n := by ring
            omega
          have hlb : ¬ (n + 1 ≤ 2 ^ Nat.clog 2 n) := by omega
          have hge : Nat.clog 2 n + 1 ≤ Nat.clog 2 (n + 1) := by
            by_contra hcon
            exact hlb ((Nat.le_pow_iff_clog_le h2).2 (by omega))
          exact le_antisymm ((Nat.le_pow_iff_clog_le h2).1 hub) hge
        rw [hkk]
        obtain ⟨ha, he, hl⟩ := hsafe (2 ^ (Nat.clog 2 n + 1)) (by rw [hkk])
        generalize hgen : Nat.clog 2 n = k at ihn heq ha he hl ⊢
        have hg := vecGrow_pow p n k hpos ha he hl
        have hgg : vecGrow p (2 ^ k, 2 ^ k) = Except.ok (2 ^ k, 2 ^ (k + 1)) := heq ▸ hg
        have hstep : vecPush p (n, 2 ^ k)
            = Except.ok ((n + 1, 2 ^ (k + 1)), some (2 ^ (k + 1))) := by
          simp [vecPush, Bind.bind, Except.bind, hgg, heq]
        simp [vecPushN, Bind.bind, Except.bind, ihn, hstep, List.range_succ]

/-- Zero-sized items: every push up to `usize::MAX` proceeds without any
growth (the initial capacity is `!0`). -/
theorem vecPushN_zst (p : VecParams) (hz : p.itemSize = 0) :
    ∀ n : Nat, n ≤ usizeMax → vecPushN p n = Except.ok ((n, usizeMax), []) := by
  intro n
  induction n with
  | zero => intro _; simp [vecPushN, vecInit, hz]
  | succ n ih =>
      intro hn
      have hne : ¬ n = usizeMax := by omega
      simp [vecPushN, Bind.bind, Except.bind, ih (by omega), vecPush, hne]

/-- C7: for the generated unsized buffer types, capacity starts at 0 when
items have non-zero size; after `N ≥ 1` sequential pushes (all growth
layouts within the address-space bound) the capacities observed at the
growth points are exactly `2^0, 2^1, …` up to the least power of two that is
`≥ N`, and the length is `N`.  For zero-sized items the initial capacity is
`!0` (unbounded) and no growth ever occurs.  `grow` rejects a doubling whose
total byte extent exceeds `isize::MAX` (through `Layout`'s checked
constructors and the explicit `Allocation too large` assert). -/
theorem generated_vec_growth :
    (∀ p : VecParams, 0 < p.itemSize → (vecInit p).2 = 0) ∧
    (∀ (p : VecParams) (n : Nat), 0 < p.itemSize → 1 ≤ n →
        (∀ c, c ≤ 2 ^ Nat.clog 2 n → arrayLayoutOk p c ∧ extendLayoutOk p c ∧
            vecLayoutSize p c ≤ isizeMax) →
        vecPushN p n = Except.ok ((n, 2 ^ Nat.clog 2 n),
          (List.range (Nat.clog 2 n + 1)).map (fun i => 2 ^ i))) ∧
    (∀ (p : VecParams) (n : Nat), p.itemSize = 0 →
        (vecInit p).2 = usizeMax ∧
        (n ≤ usizeMax → vecPushN p n = Except.ok ((n, usizeMax), []))) ∧
    (∀ (p : VecParams) (st : Nat × Nat), 0 < p.itemSize →
        isizeMax < vecLayoutSize p (if st.2 = 0 then 1 else 2 * st.2) →
        ∃ e, vecGrow p st = Except.error e) := by
  refine ⟨?_, ?_, ?_, ?_⟩
  · intro p hpos
    have h0 : ¬ p.itemSize = 0 := by omega
    simp [vecInit, h0]
  · intro p n hpos hn hsafe
    exact vecPushN_growth p hpos n hn hsafe
  · intro p n hz
    exact ⟨by simp [vecInit, hz], vecPushN_zst p hz n⟩
  · intro p st hpos hbig
    have h0 : ¬ p.itemSize = 0 := by omega
    by_cases h1 : arrayLayoutOk p (if st.2 = 0 then 1 else 2 * st.2)
    · by_cases h2 : extendLayoutOk p (if st.2 = 0 then 1 else 2 * st.2)
      · exact ⟨GrowPanic.allocTooLarge, by simp [vecGrow, h0, h1, h2, hbig]⟩
      · exact ⟨GrowPanic.layoutOverflow, by simp [vecGrow, h0, h1, h2]⟩
    · exact ⟨GrowPanic.layoutOverflow, by simp [vecGrow, h0, h1]⟩

/-- `clog2 5 = 3` (the least power of two at or above 5 is 8). -/
theorem clog_two_five : Nat.clog 2 5 = 3 := by
  have ha : Nat.clog 2 5 ≤ 3 :=
    (Nat.le_pow_iff_clog_le (by norm_num)).1 (by norm_num)
  have hb : ¬ Nat.clog 2 5 ≤ 2 := by
    intro hc
    have h5 := (Nat.le_pow_iff_clog_le (by norm_num : (1 : Nat) < 2)).2 hc
    norm_num at h5
  omega

/-- Witness for `generated_vec_growth`: 16-byte head with 8-byte items and
5 pushes (growth points 1, 2, 4, 8), the zero-sized-item layout, and a
doubling that would exceed the address space. -/
theorem generated_vec_growth_witness :
    (vecInit vp16x8).2 = 0 ∧
    vecPushN vp16x8 5 = Except.ok ((5, 2 ^ Nat.clog 2 5),
      (List.range (Nat.clog 2 5 + 1)).map (fun i => 2 ^ i)) ∧
    ((vecInit vpZst).2 = usizeMax ∧ vecPushN vpZst 5 = Except.ok ((5, usizeMax), [])) ∧
    (∃ e, vecGrow vpHuge (0, 1) = Except.error e) :=
  ⟨generated_vec_growth.1 vp16x8 (by decide),
   generated_vec_growth.2.1 vp16x8 5 (by decide) (by decide)
     (by rw [clog_two_five]; decide),
   ⟨(generated_vec_growth.2.2.1 vpZst 5 (by decide)).1,
    (generated_vec_growth.2.2.1 vpZst 5 (by decide)).2 (by decide)⟩,
   generated_vec_growth.2.2.2 vpHuge (0, 1) (by decide) (by decide)⟩

end Shatter
